import Mathlib

/-!
Verification of the data-persistence and derived-metrics layer of the
fitness-tracker app (`src/fitness_tracker_app.py`).

Modelling conventions:

* Python floats are modelled as `ℚ`.  Every numeric expression the claims
  mention (`weight * (1 + reps / 30)`, `weight * 1.025`, `sets * reps * weight`,
  the percentage formula) is exact in `ℚ`.
* `round(x, 1)` is modelled by `round1` below, rounding `10 * x` to an integer
  and dividing by `10`.  Both the code and the spec formulas use the very same
  rounding call, so the tie-breaking convention (Python rounds ties to even,
  `round` here rounds ties up) never distinguishes the two sides of a claim.
* Dates are `YYYY-MM-DD` strings in the store and are compared
  lexicographically by `sort_values(date)`; for such fixed-width strings the
  lexicographic order coincides with the calendar order, so a date is modelled
  as a `Nat` day number, with day `0` a Monday.  ISO calendar weeks are exactly
  the Monday-to-Sunday blocks, i.e. the blocks `[7*k, 7*k+6]`, and pandas
  `to_period(W)` (anchored `W-SUN`) produces the same blocks, so both the
  grouping key of the code and the "ISO calendar week" are `weekOf`.
* `pandas.concat`/`sort_values`/`drop` on a dataframe of records are modelled
  as list concatenation, sorting, and `eraseIdx` on the list of entries.
  `sort_values` uses an unstable quicksort; no claim concerns the order of
  equal dates, so any sort of the same multiset is a faithful model and we use
  `List.insertionSort`.
* `save_*` serialises the dataframe to JSON records and `load_*` reads them
  back; this round trip is modelled explicitly (`save_weight_data`,
  `load_weight_data`, ...) on a small JSON-value type.
-/

namespace Fitness

/-- A JSON scalar as stored in the flat data files. -/
inductive JVal where
  | str (v : String)
  | int (v : Int)
  | nat (v : Nat)
  | rat (v : ℚ)
deriving DecidableEq, Repr

/-- A weight-log record: keys `date, weight, notes`
    (`src/fitness_tracker_app.py` lines 159-163). -/
structure WeightEntry where
  date : Nat
  weight : ℚ
  notes : String
deriving DecidableEq, Repr

/-- A workout-log record: keys
    `date, exercise, sets, reps, weight, rpe, e1rm, next_weight, volume, notes`
    (`src/fitness_tracker_app.py` lines 248-259). -/
structure WorkoutEntry where
  date : Nat
  exercise : String
  sets : Nat
  reps : Nat
  weight : ℚ
  rpe : Int
  e1rm : ℚ
  next_weight : ℚ
  volume : ℚ
  notes : String
deriving DecidableEq, Repr

/-- The raw workout-form inputs before the derived fields are computed
    (`src/fitness_tracker_app.py` lines 223-234). -/
structure WorkoutForm where
  date : Nat
  exercise : String
  sets : Nat
  reps : Nat
  weight : ℚ
  rpe : Int
  notes : String
deriving DecidableEq, Repr

/-- the Python `round(x, 1)`: round to one decimal place. -/
def round1 (x : ℚ) : ℚ := (round (10 * x) : ℤ) / 10

/-- Line 240: `e1rm = weight * (1 + reps / 30)` (true division). -/
def e1rmRaw (weight : ℚ) (reps : Nat) : ℚ := weight * (1 + (reps : ℚ) / 30)

/-- Lines 241-246: the RPE autoregulation branches.
    `if rpe <= 8: weight * 1.025 elif rpe == 9: weight else: weight * 0.95`. -/
def nextWeightRaw (weight : ℚ) (rpe : Int) : ℚ :=
  if rpe ≤ 8 then weight * 1.025
  else if rpe = 9 then weight
  else weight * 0.95

/-- Lines 248-259: the enriched record appended to the workout dataframe. -/
def mkWorkoutEntry (f : WorkoutForm) : WorkoutEntry :=
  { date := f.date
    exercise := f.exercise
    sets := f.sets
    reps := f.reps
    weight := f.weight
    rpe := f.rpe
    e1rm := round1 (e1rmRaw f.weight f.reps)
    next_weight := round1 (nextWeightRaw f.weight f.rpe)
    volume := (f.sets : ℚ) * (f.reps : ℚ) * f.weight
    notes := f.notes }

/-- `sort_values(date)` order on weight entries. -/
def wByDate (a b : WeightEntry) : Prop := a.date ≤ b.date

/-- `sort_values(date)` order on workout entries. -/
def oByDate (a b : WorkoutEntry) : Prop := a.date ≤ b.date

instance : DecidableRel wByDate := fun a b => Nat.decLe a.date b.date

instance : DecidableRel oByDate := fun a b => Nat.decLe a.date b.date

instance : IsTotal WeightEntry wByDate := ⟨fun a b => Nat.le_total a.date b.date⟩

instance : IsTotal WorkoutEntry oByDate := ⟨fun a b => Nat.le_total a.date b.date⟩

instance : IsTrans WeightEntry wByDate := ⟨fun _ _ _ h h' => Nat.le_trans h h'⟩

instance : IsTrans WorkoutEntry oByDate := ⟨fun _ _ _ h h' => Nat.le_trans h h'⟩

/-- Lines 159-166: build the one-row frame, `concat`, `sort_values(date)`.
    The result is what `save_weight_data` persists. -/
def appendWeight (log : List WeightEntry) (e : WeightEntry) : List WeightEntry :=
  List.insertionSort wByDate (log ++ [e])

/-- Lines 248-262: build the enriched one-row frame, `concat`,
    `sort_values(date)`.  The result is what `save_workout_data` persists. -/
def appendWorkout (log : List WorkoutEntry) (f : WorkoutForm) : List WorkoutEntry :=
  List.insertionSort oByDate (log ++ [mkWorkoutEntry f])

/-- Lines 192-200: the delete button drops the row whose dataframe label is
    `idx` and saves; the labels of the loaded dataframe `0..n-1` enumerate the
    persisted (date-sorted) order.  A missing label makes `drop` raise before
    `save_weight_data` runs, modelled as `none`. -/
def removeAt (log : List WeightEntry) (idx : Nat) : Option (List WeightEntry) :=
  if idx < log.length then some (log.eraseIdx idx) else none

/-- The persisted weight log after a delete-button interaction on index `idx`:
    on failure `save_weight_data` is never reached, so the store keeps `log`. -/
def removeAtPersist (log : List WeightEntry) (idx : Nat) : List WeightEntry :=
  (removeAt log idx).getD log

/-- Lines 159-163: the JSON record of one weight entry
    (`df.to_dict(records)` row). -/
def weightRec (e : WeightEntry) : List (String × JVal) :=
  [("date", .nat e.date), ("weight", .rat e.weight), ("notes", .str e.notes)]

/-- Reading one weight record back from JSON (line 42). -/
def readWeightRec (r : List (String × JVal)) : Option WeightEntry :=
  match r.lookup ("date"), r.lookup ("weight"), r.lookup ("notes") with
  | some (.nat d), some (.rat w), some (.str n) => some ⟨d, w, n⟩
  | _, _, _ => none

/-- Lines 53-55: `save_weight_data` writes `df.to_dict(records)` as JSON. -/
def save_weight_data (log : List WeightEntry) : List (List (String × JVal)) :=
  log.map weightRec

/-- Lines 39-42: `load_weight_data` parses the JSON records back into rows;
    any malformed record fails the whole load (`json.load` is
    all-or-nothing). -/
def load_weight_data : List (List (String × JVal)) → Option (List WeightEntry)
  | [] => some []
  | r :: rs =>
    match readWeightRec r, load_weight_data rs with
    | some e, some t => some (e :: t)
    | _, _ => none

/-- Lines 248-259: the JSON record of one workout entry. -/
def workoutRec (e : WorkoutEntry) : List (String × JVal) :=
  [("date", .nat e.date), ("exercise", .str e.exercise), ("sets", .nat e.sets),
   ("reps", .nat e.reps), ("weight", .rat e.weight), ("rpe", .int e.rpe),
   ("e1rm", .rat e.e1rm), ("next_weight", .rat e.next_weight),
   ("volume", .rat e.volume), ("notes", .str e.notes)]

/-- Reading one workout record back from JSON (line 47). -/
def readWorkoutRec (r : List (String × JVal)) : Option WorkoutEntry :=
  match r.lookup ("date"), r.lookup ("exercise"), r.lookup ("sets"), r.lookup ("reps"),
      r.lookup ("weight"), r.lookup ("rpe"), r.lookup ("e1rm"),
      r.lookup ("next_weight"), r.lookup ("volume"), r.lookup ("notes") with
  | some (.nat d), some (.str ex), some (.nat s), some (.nat rp),
      some (.rat w), some (.int rpe), some (.rat e1),
      some (.rat nw), some (.rat v), some (.str n) =>
    some ⟨d, ex, s, rp, w, rpe, e1, nw, v, n⟩
  | _, _, _, _, _, _, _, _, _, _ => none

/-- Lines 57-59: `save_workout_data`. -/
def save_workout_data (log : List WorkoutEntry) : List (List (String × JVal)) :=
  log.map workoutRec

/-- Lines 44-47: `load_workout_data`. -/
def load_workout_data : List (List (String × JVal)) → Option (List WorkoutEntry)
  | [] => some []
  | r :: rs =>
    match readWorkoutRec r, load_workout_data rs with
    | some e, some t => some (e :: t)
    | _, _ => none

/-- The Monday-to-Sunday block of a day number (day `0` is a Monday): the ISO
    calendar week, and equally the `to_period(W)` key of line 430. -/
def weekOf (d : Nat) : Nat := d / 7

/-- The per-week group total: the sum of the stored `volume` over the entries
    whose date falls in week `w`. -/
def weekSum (log : List WorkoutEntry) (w : Nat) : ℚ :=
  ((log.filter fun e => weekOf e.date = w).map fun e => e.volume).sum

/-- Lines 428-432: add a `week` column, `groupby(week)[volume].sum()`.
    `groupby` emits one row per distinct key, keys sorted ascending
    (period strings of equal width sort chronologically). -/
def weeklyVolume (log : List WorkoutEntry) : List (Nat × ℚ) :=
  (List.insertionSort (· ≤ ·) ((log.map fun e => weekOf e.date).dedup)).map
    fun w => (w, weekSum log w)

/-- Line 390: the rows of the selected exercise, `sort_values(date)`. -/
def exerciseHistory (log : List WorkoutEntry) (ex : String) :
    List WorkoutEntry :=
  List.insertionSort oByDate (log.filter fun e => e.exercise = ex)

/-- Lines 392-420: the guard `len(exercise_data) > 1` and
    `pct_increase = (iloc[-1].weight - iloc[0].weight) / iloc[0].weight * 100`;
    with at most one row the tab only shows the "log at least 2 sessions"
    notice, modelled as `none`. -/
def pctIncrease (log : List WorkoutEntry) (ex : String) : Option ℚ :=
  match exerciseHistory log ex with
  | [] => none
  | e :: rest =>
    if rest.isEmpty then none
    else some (((rest.getLastD e).weight - e.weight) / e.weight * 100)

/-- The profile record: keys `name, age, weight, height, goal_weight,
    experience` (lines 27-34, 468-475). -/
structure Profile where
  name : String
  age : Int
  weight : ℚ
  height : Int
  goal_weight : ℚ
  experience : String
deriving DecidableEq, Repr

/-- Lines 468-475: the JSON document of the profile. -/
def profileRec (p : Profile) : List (String × JVal) :=
  [("name", .str p.name), ("age", .int p.age), ("weight", .rat p.weight),
   ("height", .int p.height), ("goal_weight", .rat p.goal_weight),
   ("experience", .str p.experience)]

/-- Lines 61-63: `save_profile` dumps the document as given — there is no
    validation of any field before the write. -/
def save_profile (p : Profile) : List (String × JVal) := profileRec p

/-- Lines 49-51: `load_profile` parses the persisted document. -/
def load_profile (r : List (String × JVal)) : Option Profile :=
  match r.lookup ("name"), r.lookup ("age"), r.lookup ("weight"), r.lookup ("height"),
      r.lookup ("goal_weight"), r.lookup ("experience") with
  | some (.str n), some (.int a), some (.rat w), some (.int h),
      some (.rat g), some (.str e) => some ⟨n, a, w, h, g, e⟩
  | _, _, _, _, _, _ => none

/-- The field ranges the ValidationError claim of the spec asserts for a profile
    (age 15-100, weight and goal weight 40-200, height 100-250, the
    three-value experience enum); in the code these bounds appear only as
    widget parameters of the form (lines 450-463). -/
def ProfileValid (p : Profile) : Prop :=
  15 ≤ p.age ∧ p.age ≤ 100 ∧ (40 : ℚ) ≤ p.weight ∧ p.weight ≤ 200 ∧
  100 ≤ p.height ∧ p.height ≤ 250 ∧
  (40 : ℚ) ≤ p.goal_weight ∧ p.goal_weight ≤ 200 ∧
  p.experience ∈ ["Beginner", "Intermediate", "Advanced"]

instance (p : Profile) : Decidable (ProfileValid p) := by
  unfold ProfileValid; infer_instance

/-- The rpe range the ValidationError claim of the spec asserts for a workout
    append; in the code it appears only as the slider bounds of line 232. -/
def RpeValid (rpe : Int) : Prop := 1 ≤ rpe ∧ rpe ≤ 10

instance (rpe : Int) : Decidable (RpeValid rpe) := by
  unfold RpeValid; infer_instance

/-- Scenario B of the spec: sets 3, reps 8, weight 20.0, rpe 8. -/
def scenarioB : WorkoutForm := ⟨0, "Bench Press", 3, 8, 20, 8, ""⟩

/-- A form with rpe 9 (the hold branch). -/
def formRpe9 : WorkoutForm := ⟨0, "Deadlift", 3, 8, 20, 9, ""⟩

/-- A form with rpe 10 (the deload branch). -/
def formRpe10 : WorkoutForm := ⟨0, "Deadlift", 3, 8, 20, 10, ""⟩

/-- A form whose rpe 11 lies outside the 1-10 slider range. -/
def raw11 : WorkoutForm := ⟨0, "Deadlift", 3, 8, 20, 11, ""⟩

/-- A profile whose age 101 is outside the claimed 15-100 range. -/
def badProfile : Profile := ⟨"", 101, 83.25, 173, 95, "Beginner"⟩

/-- A three-entry weight log, date-sorted, for concrete removal checks. -/
def demoWLog : List WeightEntry := [⟨0, 80, ""⟩, ⟨1, 81, "a"⟩, ⟨2, 82, ""⟩]

/-- A workout log with two bench sessions and one deadlift session. -/
def demoOLog : List WorkoutEntry :=
  [mkWorkoutEntry ⟨7, "Bench Press", 3, 8, 25, 8, ""⟩,
   mkWorkoutEntry ⟨0, "Bench Press", 3, 8, 20, 9, ""⟩,
   mkWorkoutEntry ⟨3, "Deadlift", 3, 5, 60, 8, ""⟩]

/-- A workout log whose dates 0, 6, 7 span exactly the two ISO weeks 0, 1. -/
def demoVLog : List WorkoutEntry :=
  [mkWorkoutEntry ⟨0, "Barbell Squat", 3, 5, 100, 8, ""⟩,
   mkWorkoutEntry ⟨6, "Deadlift", 2, 5, 120, 9, ""⟩,
   mkWorkoutEntry ⟨7, "Bench Press", 3, 8, 20, 8, ""⟩]

lemma readWeightRec_weightRec (e : WeightEntry) :
    readWeightRec (weightRec e) = some e := rfl

lemma readWorkoutRec_workoutRec (e : WorkoutEntry) :
    readWorkoutRec (workoutRec e) = some e := rfl

/-- Saving a weight log and loading it back returns the same rows in the same
    order. -/
lemma load_save_weight (l : List WeightEntry) :
    load_weight_data (save_weight_data l) = some l := by
  induction l with
  | nil => rfl
  | cons e t ih =>
    simp only [save_weight_data, List.map_cons] at ih ⊢
    simp [load_weight_data, readWeightRec_weightRec, ih]

/-- Saving a workout log and loading it back returns the same rows in the same
    order. -/
lemma load_save_workout (l : List WorkoutEntry) :
    load_workout_data (save_workout_data l) = some l := by
  induction l with
  | nil => rfl
  | cons e t ih =>
    simp only [save_workout_data, List.map_cons] at ih ⊢
    simp [load_workout_data, readWorkoutRec_workoutRec, ih]

/-- The enriched entry really appears in the sorted frame that gets saved. -/
lemma mkWorkoutEntry_mem (log : List WorkoutEntry) (f : WorkoutForm) :
    mkWorkoutEntry f ∈ appendWorkout log f := by
  rw [appendWorkout, List.mem_insertionSort]; simp

/-- Appending a weight entry permutes the old log plus the new row. -/
lemma appendWeight_perm (log : List WeightEntry) (e : WeightEntry) :
    (appendWeight log e).Perm (log ++ [e]) :=
  List.perm_insertionSort wByDate (log ++ [e])

/-- Appending a workout entry permutes the old log plus the enriched row. -/
lemma appendWorkout_perm (log : List WorkoutEntry) (f : WorkoutForm) :
    (appendWorkout log f).Perm (log ++ [mkWorkoutEntry f]) :=
  List.perm_insertionSort oByDate (log ++ [mkWorkoutEntry f])

/-- Claim C1: for every appended workout entry with valid inputs (sets in
    1-10, reps in 1-50, weight in 0-500, rpe in 1-10), the entry is stored in
    the saved log and its derived field `e1rm` equals
    `weight * (1 + reps / 30)` rounded to one decimal place. -/
theorem e1rm_stored_spec (log : List WorkoutEntry) (f : WorkoutForm)
    (hsets : 1 ≤ f.sets ∧ f.sets ≤ 10) (hreps : 1 ≤ f.reps ∧ f.reps ≤ 50)
    (hweight : 0 ≤ f.weight ∧ f.weight ≤ 500) (hrpe : RpeValid f.rpe) :
    mkWorkoutEntry f ∈ appendWorkout log f ∧
    (mkWorkoutEntry f).e1rm = round1 (f.weight * (1 + (f.reps : ℚ) / 30)) :=
  ⟨mkWorkoutEntry_mem log f, rfl⟩

/-- Witness for C1 at Scenario B (sets 3, reps 8, weight 20, rpe 8). -/
theorem e1rm_stored_spec_witness :
    mkWorkoutEntry scenarioB ∈ appendWorkout [] scenarioB ∧
    (mkWorkoutEntry scenarioB).e1rm =
      round1 (scenarioB.weight * (1 + (scenarioB.reps : ℚ) / 30)) :=
  e1rm_stored_spec [] scenarioB (by decide) (by decide)
    (by constructor <;> norm_num [scenarioB]) (by decide)

/-- Claim C2: for every appended workout entry with rpe in 1-10, the stored
    `next_weight` is `weight * 1.025` when `rpe ≤ 8`, `weight` when `rpe = 9`
    and `weight * 0.95` when `rpe ≥ 10`, each rounded to one decimal place. -/
theorem next_weight_branches (log : List WorkoutEntry) (f : WorkoutForm)
    (hrpe : RpeValid f.rpe) :
    mkWorkoutEntry f ∈ appendWorkout log f ∧
    (f.rpe ≤ 8 → (mkWorkoutEntry f).next_weight = round1 (f.weight * 1.025)) ∧
    (f.rpe = 9 → (mkWorkoutEntry f).next_weight = round1 f.weight) ∧
    (10 ≤ f.rpe → (mkWorkoutEntry f).next_weight = round1 (f.weight * 0.95)) := by
  refine ⟨mkWorkoutEntry_mem log f, ?_, ?_, ?_⟩
  · intro h; simp [mkWorkoutEntry, nextWeightRaw, h]
  · intro h; simp [mkWorkoutEntry, nextWeightRaw, h]
  · intro h
    have h8 : ¬ f.rpe ≤ 8 := by omega
    have h9 : ¬ f.rpe = 9 := by omega
    simp [mkWorkoutEntry, nextWeightRaw, h8, h9]

/-- Witness for C2 at rpe 8 (increase), rpe 9 (hold) and rpe 10 (deload). -/
theorem next_weight_branches_witness :
    (mkWorkoutEntry scenarioB).next_weight =
      round1 (scenarioB.weight * 1.025) ∧
    (mkWorkoutEntry formRpe9).next_weight = round1 formRpe9.weight ∧
    (mkWorkoutEntry formRpe10).next_weight =
      round1 (formRpe10.weight * 0.95) :=
  ⟨(next_weight_branches [] scenarioB (by decide)).2.1 (by decide),
   (next_weight_branches [] formRpe9 (by decide)).2.2.1 (by decide),
   (next_weight_branches [] formRpe10 (by decide)).2.2.2 (by decide)⟩

/-- Claim C9: the stored `volume` equals `sets * reps * weight` exactly, with
    no rounding; at Scenario B (sets 3, reps 8, weight 20.0) it is 480.0. -/
theorem volume_stored_spec :
    (∀ (log : List WorkoutEntry) (f : WorkoutForm),
      mkWorkoutEntry f ∈ appendWorkout log f ∧
      (mkWorkoutEntry f).volume = (f.sets : ℚ) * (f.reps : ℚ) * f.weight) ∧
    (mkWorkoutEntry scenarioB).volume = 480 := by
  refine ⟨fun log f => ⟨mkWorkoutEntry_mem log f, rfl⟩, ?_⟩
  norm_num [mkWorkoutEntry, scenarioB]

/-- Claim C10: every append leaves the persisted collection equal, as a
    multiset, to the previous collection plus exactly the one new entry. -/
theorem append_frame_effect (wlog : List WeightEntry) (e : WeightEntry)
    (olog : List WorkoutEntry) (f : WorkoutForm) :
    (appendWeight wlog e : Multiset WeightEntry) =
      (wlog : Multiset WeightEntry) + {e} ∧
    (appendWorkout olog f : Multiset WorkoutEntry) =
      (olog : Multiset WorkoutEntry) + {mkWorkoutEntry f} := by
  constructor
  · rw [Multiset.coe_eq_coe.mpr (appendWeight_perm wlog e),
      ← Multiset.coe_singleton, Multiset.coe_add]
  · rw [Multiset.coe_eq_coe.mpr (appendWorkout_perm olog f),
      ← Multiset.coe_singleton, Multiset.coe_add]

/-- Claim C4: after every append to either log, the persisted collection read
    back by load is sorted ascending by date. -/
theorem append_persists_sorted (wlog : List WeightEntry) (e : WeightEntry)
    (olog : List WorkoutEntry) (f : WorkoutForm) :
    load_weight_data (save_weight_data (appendWeight wlog e)) =
      some (appendWeight wlog e) ∧
    List.Sorted wByDate (appendWeight wlog e) ∧
    load_workout_data (save_workout_data (appendWorkout olog f)) =
      some (appendWorkout olog f) ∧
    List.Sorted oByDate (appendWorkout olog f) :=
  ⟨load_save_weight _, List.sorted_insertionSort wByDate _,
   load_save_workout _, List.sorted_insertionSort oByDate _⟩

/-- Claim C5: a removal at an index beyond the collection size fails and the
    persisted store is unchanged (a subsequent load returns the same entries
    in the same order); an in-bounds index removes exactly the entry at that
    position of the loaded date-sorted view and persists the remainder. -/
theorem removeAt_spec (log : List WeightEntry) (idx : Nat) :
    (log.length ≤ idx →
      removeAt log idx = none ∧ removeAtPersist log idx = log ∧
      load_weight_data (save_weight_data log) = some log) ∧
    (idx < log.length →
      removeAt log idx = some (log.take idx ++ log.drop (idx + 1)) ∧
      removeAtPersist log idx = log.take idx ++ log.drop (idx + 1) ∧
      (List.Sorted wByDate log →
        List.Sorted wByDate (removeAtPersist log idx))) := by
  constructor
  · intro h
    have hn : ¬ idx < log.length := Nat.not_lt.mpr h
    exact ⟨by simp [removeAt, hn], by simp [removeAtPersist, removeAt, hn],
      load_save_weight log⟩
  · intro h
    have h1 : removeAt log idx = some (log.take idx ++ log.drop (idx + 1)) := by
      simp [removeAt, h, List.eraseIdx_eq_take_drop_succ]
    refine ⟨h1, by simp [removeAtPersist, h1], fun hs => ?_⟩
    have h2 : removeAtPersist log idx = log.eraseIdx idx := by
      simp [removeAtPersist, removeAt, h]
    rw [h2]
    exact List.Pairwise.sublist (List.eraseIdx_sublist log idx) hs

/-- Witness for C5: on the three-entry demo log, index 5 fails and leaves the
    store as is, while index 1 removes exactly the middle entry. -/
theorem removeAt_spec_witness :
    (removeAt demoWLog 5 = none ∧ removeAtPersist demoWLog 5 = demoWLog ∧
      load_weight_data (save_weight_data demoWLog) = some demoWLog) ∧
    removeAt demoWLog 1 = some (demoWLog.take 1 ++ demoWLog.drop 2) :=
  ⟨(removeAt_spec demoWLog 5).1 (by decide),
   ((removeAt_spec demoWLog 1).2 (by decide)).1⟩

/-- Claim C6: per-exercise progress over the date-sorted entries of the
    selected exercise equals (last.weight - first.weight) / first.weight * 100
    when at least 2 entries exist; with fewer than 2 it reports no value
    (insufficient data) instead of crashing on a division by zero. -/
theorem pct_increase_spec (log : List WorkoutEntry) (ex : String) :
    ((exerciseHistory log ex).length < 2 → pctIncrease log ex = none) ∧
    (∀ f l, 2 ≤ (exerciseHistory log ex).length →
      (exerciseHistory log ex).head? = some f →
      (exerciseHistory log ex).getLast? = some l →
      pctIncrease log ex = some ((l.weight - f.weight) / f.weight * 100)) := by
  rcases hd : exerciseHistory log ex with _ | ⟨e, rest⟩
  · refine ⟨fun _ => by simp [pctIncrease, hd], fun f l hlen hf hl => ?_⟩
    simp at hf
  · constructor
    · intro hlen
      simp only [List.length_cons] at hlen
      have hrest : rest = [] := List.length_eq_zero.mp (by omega)
      subst hrest
      simp [pctIncrease, hd]
    · intro f l hlen hf hl
      have hfe : e = f := by simpa using hf
      subst hfe
      rw [List.getLast?_cons] at hl
      have hgl : rest.getLast?.getD e = l := Option.some.inj hl
      have hne : rest.isEmpty = false := by
        rcases rest with _ | ⟨r, rs⟩
        · simp at hlen
        · rfl
      simp [pctIncrease, hd, hne, List.getLastD_eq_getLast?, hgl]

/-- Witness for C6: two logged bench sessions (20 kg then 25 kg) give a
    percentage increase, while the single deadlift session reports no value. -/
theorem pct_increase_spec_witness :
    pctIncrease demoOLog ("Bench Press") = some
      (((mkWorkoutEntry ⟨7, "Bench Press", 3, 8, 25, 8, ""⟩).weight -
          (mkWorkoutEntry ⟨0, "Bench Press", 3, 8, 20, 9, ""⟩).weight) /
        (mkWorkoutEntry ⟨0, "Bench Press", 3, 8, 20, 9, ""⟩).weight * 100) ∧
    pctIncrease demoOLog ("Deadlift") = none :=
  ⟨(pct_increase_spec demoOLog ("Bench Press")).2
      (mkWorkoutEntry ⟨0, "Bench Press", 3, 8, 20, 9, ""⟩)
      (mkWorkoutEntry ⟨7, "Bench Press", 3, 8, 25, 8, ""⟩)
      (by decide) rfl rfl,
   (pct_increase_spec demoOLog ("Deadlift")).1 (by decide)⟩

/-- Claim C7: weekly volume groups workout entries by the ISO calendar week
    of their date and sums the stored volume per week, ordered by week; a log
    spanning exactly the two weeks w1 < w2 yields exactly those two grouped
    totals, each the sum of volume over the entries of that week. -/
theorem weekly_volume_spec (log : List WorkoutEntry) (w1 w2 : Nat)
    (hlt : w1 < w2)
    (hspan : ∀ e ∈ log, weekOf e.date = w1 ∨ weekOf e.date = w2)
    (h1 : ∃ e ∈ log, weekOf e.date = w1)
    (h2 : ∃ e ∈ log, weekOf e.date = w2) :
    weeklyVolume log = [(w1, weekSum log w1), (w2, weekSum log w2)] := by
  have hnd : (List.insertionSort (· ≤ ·)
      ((log.map fun e => weekOf e.date).dedup)).Nodup :=
    ((List.perm_insertionSort _ _).nodup_iff).mpr (List.nodup_dedup _)
  have hperm : (List.insertionSort (· ≤ ·)
      ((log.map fun e => weekOf e.date).dedup)).Perm [w1, w2] := by
    apply List.perm_of_nodup_nodup_toFinset_eq hnd (by simp [hlt.ne])
    ext x
    simp only [List.mem_toFinset, List.mem_insertionSort, List.mem_dedup,
      List.mem_map, List.mem_cons, List.not_mem_nil, or_false]
    constructor
    · rintro ⟨e, he, rfl⟩
      exact hspan e he
    · rintro (rfl | rfl)
      · exact h1
      · exact h2
  have hkeys :
      List.insertionSort (· ≤ ·) ((log.map fun e => weekOf e.date).dedup) =
        [w1, w2] :=
    List.eq_of_perm_of_sorted hperm (List.sorted_insertionSort _ _)
      (by simp [List.sorted_cons, hlt.le])
  simp only [weeklyVolume, hkeys, List.map_cons, List.map_nil]

/-- Witness for C7: a log with dates 0, 6, 7 spans exactly ISO weeks 0 and 1
    and groups into exactly those two totals. -/
theorem weekly_volume_spec_witness :
    weeklyVolume demoVLog =
      [(0, weekSum demoVLog 0), (1, weekSum demoVLog 1)] :=
  weekly_volume_spec demoVLog 0 1 (by decide) (by decide) (by decide)
    (by decide)

/-- Claim C3 counterexample: at rpe 11 (outside 1-10) the append code stores
    the entry instead of rejecting the operation. -/
theorem rpe_out_of_range_stored :
    ¬ RpeValid raw11.rpe ∧ appendWorkout [] raw11 = [mkWorkoutEntry raw11] :=
  ⟨by decide, rfl⟩

/-- Claim C3 amended: a workout append performs no rpe validation — with rpe
    outside 1-10 the enriched entry is still stored (rpe above 9 falls into
    the times-0.95 branch, rpe below 1 into the times-1.025 branch); the range
    is enforced only by the slider of the form, not by the append. -/
theorem append_no_rpe_validation (log : List WorkoutEntry) (f : WorkoutForm)
    (h : ¬ RpeValid f.rpe) :
    (appendWorkout log f : Multiset WorkoutEntry) =
      (log : Multiset WorkoutEntry) + {mkWorkoutEntry f} ∧
    (9 < f.rpe → (mkWorkoutEntry f).next_weight = round1 (f.weight * 0.95)) ∧
    (f.rpe < 1 →
      (mkWorkoutEntry f).next_weight = round1 (f.weight * 1.025)) := by
  refine ⟨?_, fun h9 => ?_, fun hlow => ?_⟩
  · rw [Multiset.coe_eq_coe.mpr (appendWorkout_perm log f),
      ← Multiset.coe_singleton, Multiset.coe_add]
  · have h8 : ¬ f.rpe ≤ 8 := by omega
    have h9ne : ¬ f.rpe = 9 := by omega
    simp [mkWorkoutEntry, nextWeightRaw, h8, h9ne]
  · have h8 : f.rpe ≤ 8 := by omega
    simp [mkWorkoutEntry, nextWeightRaw, h8]

/-- Witness for the amended C3 at rpe 11. -/
theorem append_no_rpe_validation_witness :
    ¬ RpeValid raw11.rpe ∧
    (appendWorkout [] raw11 : Multiset WorkoutEntry) =
      (([] : List WorkoutEntry) : Multiset WorkoutEntry) +
        {mkWorkoutEntry raw11} ∧
    (mkWorkoutEntry raw11).next_weight = round1 (raw11.weight * 0.95) :=
  ⟨by decide, (append_no_rpe_validation [] raw11 (by decide)).1,
   (append_no_rpe_validation [] raw11 (by decide)).2.1 (by decide)⟩

/-- Claim C8 counterexample: save_profile performs no range validation — a
    profile with age 101 (outside 15-100) is persisted as given and read back
    unchanged, not rejected. -/
theorem profile_out_of_range_persisted :
    ¬ ProfileValid badProfile ∧
    save_profile badProfile = profileRec badProfile ∧
    load_profile (save_profile badProfile) = some badProfile :=
  ⟨fun h => absurd h.2.1 (by decide), rfl, rfl⟩

/-- Claim C8 amended: the store never rejects — save_profile persists any
    record, in range or not, exactly as given, and a subsequent load returns
    it unchanged; field ranges are constrained only by the form widgets. -/
theorem save_profile_no_validation (p : Profile) :
    save_profile p = profileRec p ∧
    load_profile (save_profile p) = some p :=
  ⟨rfl, rfl⟩

end Fitness
